import Mathlib

/-!
Verification of the Sky-Planner weather recommendation engine
(`src/index.js`): the risk classifier `calculateRiskLevel`, the packing
list generator `generatePackingList`, the time slot advisor
`generateTimeSlots`, and the normalizing part of `getWeatherData`.

The classifier and its siblings read the weather fields with `parseInt`,
so the embedding takes the parsed integers directly as `Int` fields.
-/

namespace SkyPlanner

/-- Parsed weather fields as consumed by `calculateRiskLevel`,
`generatePackingList` and `generateTimeSlots` (the source applies
`parseInt` to each field it uses). -/
structure Weather where
  temperature : Int
  precipitation : Int
  windSpeed : Int
  uvIndex : Int
  deriving DecidableEq, Repr

/-- Temperature contribution to `riskScore` (src/index.js lines 104-106):
`+2` for `temp > 35 || temp < 5`, else `+1` for `temp > 30 || temp < 10`. -/
def tempScore (temp : Int) : Int :=
  if temp > 35 ∨ temp < 5 then 2
  else if temp > 30 ∨ temp < 10 then 1
  else 0

/-- Precipitation contribution to `riskScore` (lines 109-111):
`+2` for `precip > 70`, else `+1` for `precip > 30`. -/
def precipScore (precip : Int) : Int :=
  if precip > 70 then 2
  else if precip > 30 then 1
  else 0

/-- Wind contribution to `riskScore` (lines 114-116):
`+2` for `wind > 25`, else `+1` for `wind > 15`. -/
def windScore (wind : Int) : Int :=
  if wind > 25 then 2
  else if wind > 15 then 1
  else 0

/-- The accumulated `riskScore` of `calculateRiskLevel` (lines 101-116). -/
def riskScore (w : Weather) : Int :=
  tempScore w.temperature + precipScore w.precipitation + windScore w.windSpeed

/-- `calculateRiskLevel` (lines 100-122): maps the score to a level string. -/
def calculateRiskLevel (w : Weather) : String :=
  if riskScore w ≥ 3 then "high"
  else if riskScore w ≥ 1 then "medium"
  else "low"

/-- `generatePackingList` (lines 129-146): `items` starts with
`"Water bottle"` and each rule pushes its items in source order. -/
def generatePackingList (w : Weather) : List String :=
  ["Water bottle"]
    ++ (if w.precipitation > 20 then ["Umbrella", "Waterproof jacket"] else [])
    ++ (if w.temperature < 15 then ["Warm jacket", "Blanket"] else [])
    ++ (if w.temperature > 25 then ["Hat", "Light clothing"] else [])
    ++ (if w.uvIndex > 5 then ["Sunscreen", "Sunglasses"] else [])
    ++ (if w.windSpeed > 15 then ["Windbreaker"] else [])

/-- A recommended slot: display label and risk string. -/
structure TimeSlot where
  time : String
  risk : String
  deriving DecidableEq, Repr

/-- The local `slots` array of `generateTimeSlots` (lines 157-163),
before truncation. -/
def candidateSlots (w : Weather) : List TimeSlot :=
  let baseRisk := calculateRiskLevel w
  [ ⟨"10:00 AM", "low"⟩,
    ⟨"12:00 PM", baseRisk⟩,
    ⟨"2:00 PM", baseRisk⟩,
    ⟨"4:00 PM", if baseRisk = "low" then "medium" else "high"⟩,
    ⟨"6:00 PM", "low"⟩ ]

/-- `generateTimeSlots` (lines 153-167): `slots.slice(0, 3)`. -/
def generateTimeSlots (w : Weather) : List TimeSlot :=
  (candidateSlots w).take 3

lemma tempScore_bounds (t : Int) : 0 ≤ tempScore t ∧ tempScore t ≤ 2 := by
  unfold tempScore; split_ifs <;> norm_num

lemma precipScore_bounds (p : Int) : 0 ≤ precipScore p ∧ precipScore p ≤ 2 := by
  unfold precipScore; split_ifs <;> norm_num

lemma windScore_bounds (v : Int) : 0 ≤ windScore v ∧ windScore v ≤ 2 := by
  unfold windScore; split_ifs <;> norm_num

lemma riskScore_bounds (w : Weather) : 0 ≤ riskScore w ∧ riskScore w ≤ 6 := by
  have h1 := tempScore_bounds w.temperature
  have h2 := precipScore_bounds w.precipitation
  have h3 := windScore_bounds w.windSpeed
  unfold riskScore
  omega

/-- C1: `calculateRiskLevel` returns `"high"` exactly when the total score
is at least 3, `"medium"` exactly when it is 1 or 2, and `"low"` exactly
when it is 0; at the precipitation boundary, exactly 70 scores +1. -/
theorem calculateRiskLevel_score_bands (w : Weather) :
    (calculateRiskLevel w = "high" ↔ 3 ≤ riskScore w) ∧
    (calculateRiskLevel w = "medium" ↔ (riskScore w = 1 ∨ riskScore w = 2)) ∧
    (calculateRiskLevel w = "low" ↔ riskScore w = 0) ∧
    precipScore 70 = 1 := by
  have hb := riskScore_bounds w
  unfold calculateRiskLevel
  split_ifs with h1 h2
  · exact ⟨⟨fun _ => h1, fun _ => rfl⟩,
      ⟨fun h => absurd h (by decide), fun h => absurd h1 (by omega)⟩,
      ⟨fun h => absurd h (by decide), fun h => absurd h1 (by omega)⟩,
      by decide⟩
  · exact ⟨⟨fun h => absurd h (by decide), fun h => absurd h h1⟩,
      ⟨fun _ => by omega, fun _ => rfl⟩,
      ⟨fun h => absurd h (by decide), fun h => absurd h (by omega)⟩,
      by decide⟩
  · exact ⟨⟨fun h => absurd h (by decide), fun h => absurd h h1⟩,
      ⟨fun h => absurd h (by decide), fun h => absurd h (by omega)⟩,
      ⟨fun _ => by omega, fun _ => rfl⟩,
      by decide⟩

/-- C1 witness: at temperature 0 and precipitation 80 the score is 4 and
the level is `"high"`. -/
theorem calculateRiskLevel_score_bands_witness :
    (calculateRiskLevel ⟨0, 80, 0, 5⟩ = "high" ↔ 3 ≤ riskScore ⟨0, 80, 0, 5⟩) ∧
    calculateRiskLevel ⟨0, 80, 0, 5⟩ = "high" :=
  ⟨(calculateRiskLevel_score_bands ⟨0, 80, 0, 5⟩).1, by decide⟩

/-- C2 counterexample: at the calm reading (20, 0, 0, 5) the returned
labels are `"10:00 AM"`, `"12:00 PM"`, `"2:00 PM"`, not `"10:00"`,
`"12:00"`, `"14:00"` as the claim states. -/
theorem generateTimeSlots_labels_counterexample :
    (generateTimeSlots ⟨20, 0, 0, 5⟩).map TimeSlot.time
        = ["10:00 AM", "12:00 PM", "2:00 PM"] ∧
    (generateTimeSlots ⟨20, 0, 0, 5⟩).map TimeSlot.time
        ≠ ["10:00", "12:00", "14:00"] := by
  exact ⟨rfl, by decide⟩

/-- C2 amended: `generateTimeSlots` returns exactly the first 3 of the
5 candidate slots, labelled `"10:00 AM"`, `"12:00 PM"`, `"2:00 PM"` with
risks `low`, `baseRisk`, `baseRisk`; the discarded candidates are
`"4:00 PM"` with risk `medium` if `baseRisk` is `"low"` and `"high"`
otherwise, and `"6:00 PM"` with risk `low`. -/
theorem generateTimeSlots_first_three (w : Weather) :
    generateTimeSlots w
        = [⟨"10:00 AM", "low"⟩,
           ⟨"12:00 PM", calculateRiskLevel w⟩,
           ⟨"2:00 PM", calculateRiskLevel w⟩] ∧
    (candidateSlots w).length = 5 ∧
    generateTimeSlots w = (candidateSlots w).take 3 ∧
    (candidateSlots w).drop 3
        = [⟨"4:00 PM", if calculateRiskLevel w = "low" then "medium" else "high"⟩,
           ⟨"6:00 PM", "low"⟩] :=
  ⟨rfl, rfl, rfl, rfl⟩

/-- C5: the packing list always contains `"Water bottle"`, and the
spec's example reading (temperature 10, precipitation 25, wind 5, UV 3)
produces exactly the five items in rule order. -/
theorem generatePackingList_contents :
    (∀ w : Weather, "Water bottle" ∈ generatePackingList w) ∧
    generatePackingList ⟨10, 25, 5, 3⟩
        = ["Water bottle", "Umbrella", "Waterproof jacket",
           "Warm jacket", "Blanket"] := by
  constructor
  · intro w
    unfold generatePackingList
    simp
  · decide

lemma generatePackingList_nodup (w : Weather) :
    (generatePackingList w).Nodup := by
  unfold generatePackingList
  split_ifs <;> first | (exfalso; omega) | decide

/-- C6 counterexample (negation of the claim): no Reading yields a
duplicate entry in `generatePackingList`, since the rules append
pairwise-distinct strings. -/
theorem generatePackingList_no_duplicates :
    ¬ ∃ w : Weather, ¬ (generatePackingList w).Nodup :=
  fun ⟨w, hw⟩ => hw (generatePackingList_nodup w)

/-- C6 amended: for every Reading the list returned by
`generatePackingList` has no duplicate entry — no deduplication is
performed, but every rule appends strings distinct from all others. -/
theorem generatePackingList_nodup_forall :
    ∀ w : Weather, (generatePackingList w).Nodup :=
  fun w => generatePackingList_nodup w

/-- Number of the three risk factors contributing a nonzero score. -/
def nonzeroFactors (w : Weather) : Int :=
  (if tempScore w.temperature ≠ 0 then 1 else 0) +
  (if precipScore w.precipitation ≠ 0 then 1 else 0) +
  (if windScore w.windSpeed ≠ 0 then 1 else 0)

/-- C9: `calculateRiskLevel` returns `"high"` only when at least two of
the three factors contribute a nonzero score — a single factor adds at
most 2, short of the threshold 3. -/
theorem calculateRiskLevel_high_needs_two_factors (w : Weather)
    (h : calculateRiskLevel w = "high") : 2 ≤ nonzeroFactors w := by
  have h3 : 3 ≤ riskScore w := by
    by_contra hc
    unfold calculateRiskLevel at h
    rw [if_neg hc] at h
    split_ifs at h <;> simp at h
  have h1 := tempScore_bounds w.temperature
  have h2 := precipScore_bounds w.precipitation
  have hv := windScore_bounds w.windSpeed
  unfold riskScore at h3
  unfold nonzeroFactors
  split_ifs <;> omega

/-- C9 witness: at temperature 0 and precipitation 80 the level is
`"high"` and two factors are nonzero. -/
theorem calculateRiskLevel_high_needs_two_factors_witness :
    2 ≤ nonzeroFactors ⟨0, 80, 0, 5⟩ :=
  calculateRiskLevel_high_needs_two_factors ⟨0, 80, 0, 5⟩ (by decide)

/-- C10: the packing list always starts with `"Water bottle"` and has
between 1 and 8 entries — the cold rule (`temp < 15`) and the hot rule
(`temp > 25`) are mutually exclusive. -/
theorem generatePackingList_head_and_length (w : Weather) :
    (generatePackingList w).head? = some "Water bottle" ∧
    1 ≤ (generatePackingList w).length ∧
    (generatePackingList w).length ≤ 8 := by
  unfold generatePackingList
  split_ifs <;> first | (exfalso; omega) | decide

/-!
Normalizer: the payload-processing part of `getWeatherData`
(src/index.js lines 195-229). The raw provider fields may be absent or
fractional, so they are modelled as `Option` and the UV value as `ℚ`.
JavaScript `x || d` defaults on every falsy value — `undefined` and `0`
(and the empty string) — which the `jsOr*` helpers reproduce.
Toast messages emitted through `showErrorMessage` are collected in the
second component of the result.
-/

/-- JavaScript `x || d` on an optional number: `d` when absent or zero. -/
def jsOrQ (o : Option ℚ) (d : ℚ) : ℚ :=
  match o with
  | none => d
  | some x => if x = 0 then d else x

/-- JavaScript `x || d` on an optional integer: `d` when absent or zero. -/
def jsOrInt (o : Option Int) (d : Int) : Int :=
  match o with
  | none => d
  | some x => if x = 0 then d else x

/-- JavaScript `s || d` on an optional string: `d` when absent or empty. -/
def jsOrStr (o : Option String) (d : String) : String :=
  match o with
  | none => d
  | some s => if s = "" then d else s

/-- JavaScript `Math.round`: round half toward positive infinity. -/
def jsRound (q : ℚ) : Int :=
  Int.floor (q + 1 / 2)

/-- The UV normalization of `getWeatherData` (lines 206-209):
`Math.min(Math.max(Math.round(data.current.uv_index || 5), 1), 11)`. -/
def normalizeUv (raw : Option ℚ) : Int :=
  min (max (jsRound (jsOrQ raw 5)) 1) 11

/-- `getUVDescription` (lines 16-22). -/
def getUVDescription (uv : Int) : String :=
  if uv ≤ 2 then "Low"
  else if uv ≤ 5 then "Moderate"
  else if uv ≤ 7 then "High"
  else if uv ≤ 10 then "Very High"
  else "Extreme"

/-- The provider's explicit error object (`data.error`). -/
structure ErrObj where
  info : Option String
  deriving DecidableEq, Repr

/-- The provider's `data.current` section. -/
structure CurrentData where
  temperature : Int
  weather_descriptions : Option (List String)
  precip : Option Int
  wind_speed : Option Int
  uv_index : Option ℚ
  deriving DecidableEq, Repr

/-- A parsed provider payload: an optional error object and an optional
current-conditions section. -/
structure Payload where
  error : Option ErrObj
  current : Option CurrentData
  deriving DecidableEq, Repr

/-- The normalized reading returned on success (lines 212-218); every
field is the display string the source builds. -/
structure Reading where
  temperature : String
  condition : String
  precipitation : String
  windSpeed : String
  uvIndex : String
  deriving DecidableEq, Repr

/-- Failures thrown by `getWeatherData`: the provider-error throw
(line 200) and the missing-`current` throw (line 221). -/
inductive WErr where
  | providerError (msg : String)
  | upstreamError (msg : String)
  deriving DecidableEq, Repr

/-- True on the `Except.error` branch. -/
def isFailure : Except WErr Reading → Bool
  | Except.error _ => true
  | Except.ok _ => false

/-- The success object built from `data.current` (lines 212-218). -/
def mkReading (c : CurrentData) : Reading :=
  { temperature := toString c.temperature ++ "°C"
    condition := jsOrStr (c.weather_descriptions.bind List.head?) "Unknown"
    precipitation := toString (jsOrInt c.precip 0) ++ "%"
    windSpeed := toString (jsOrInt c.wind_speed 0) ++ " km/h"
    uvIndex := toString (normalizeUv c.uv_index) ++ " ("
        ++ getUVDescription (normalizeUv c.uv_index) ++ ")" }

/-- The generic toast emitted by the catch block (lines 225-227). -/
def msgFetchFailed : String :=
  "Failed to fetch weather data. Please check your API key and connection."

/-- The payload-processing part of `getWeatherData` (lines 195-229):
result of the try body together with the toasts emitted through
`showErrorMessage` (a throw inside the try also reaches the catch block,
which adds the generic toast). -/
def getWeatherData (data : Payload) : Except WErr Reading × List String :=
  match data.error with
  | some e =>
      (Except.error (WErr.providerError (jsOrStr e.info "Unknown API error")),
       ["Weather API error: " ++ jsOrStr e.info "Unknown error", msgFetchFailed])
  | none =>
      match data.current with
      | some c => (Except.ok (mkReading c), [])
      | none =>
          (Except.error (WErr.upstreamError "Invalid response format from weather API"),
           [msgFetchFailed])

/-- Clamp `x` into `[lo, hi]`, as the spec's `clamp` formula. -/
def clamp (x lo hi : Int) : Int :=
  if x < lo then lo
  else if hi < x then hi
  else x

/-- The claim's formula for the normalized UV index, with nullish (`??`)
defaulting: 5 replaces the raw value only when it is absent. -/
def uvIndexSpecClaim (raw : Option ℚ) : Int :=
  clamp (jsRound (match raw with | none => (5 : ℚ) | some x => x)) 1 11

/-- The amended formula: 5 replaces the raw value when it is absent or
zero, matching the source's `||` defaulting. -/
def uvIndexSpecAmended (raw : Option ℚ) : Int :=
  clamp (jsRound (match raw with
    | none => (5 : ℚ)
    | some x => if x = 0 then 5 else x)) 1 11

lemma min_max_eq_clamp (r : Int) : min (max r 1) 11 = clamp r 1 11 := by
  unfold clamp
  split_ifs <;> omega

lemma jsRound_five : jsRound 5 = 5 := by
  unfold jsRound
  rw [Int.floor_eq_iff]
  norm_num

lemma jsRound_zero : jsRound 0 = 0 := by
  unfold jsRound
  rw [Int.floor_eq_iff]
  norm_num

lemma normalizeUv_some_zero : normalizeUv (some 0) = 5 := by
  unfold normalizeUv jsOrQ
  norm_num [jsRound_five]

/-- C3 counterexample: for a present raw `uv_index` of 0 the source
yields 5 (JavaScript `||` treats 0 as falsy), while the claim's formula
`clamp(round(rawUv ?? 5), 1, 11)` yields 1. -/
theorem normalizeUv_zero_counterexample :
    normalizeUv (some 0) = 5 ∧ uvIndexSpecClaim (some 0) = 1 ∧
    normalizeUv (some 0) ≠ uvIndexSpecClaim (some 0) := by
  have hclaim : uvIndexSpecClaim (some 0) = 1 := by
    unfold uvIndexSpecClaim
    norm_num [jsRound_zero, clamp]
  refine ⟨normalizeUv_some_zero, hclaim, ?_⟩
  rw [normalizeUv_some_zero, hclaim]
  norm_num

/-- C3 amended: the normalized `uvIndex` equals
`clamp(round(d), 1, 11)` where `d` is 5 when the raw `uv_index` is
absent or zero and the raw value otherwise; in particular a raw
`uv_index` of 0 yields 5. -/
theorem normalizeUv_eq_spec_amended (raw : Option ℚ) :
    normalizeUv raw = uvIndexSpecAmended raw ∧ normalizeUv (some 0) = 5 := by
  constructor
  · cases raw with
    | none => exact min_max_eq_clamp (jsRound 5)
    | some x => exact min_max_eq_clamp (jsRound (if x = 0 then 5 else x))
  · exact normalizeUv_some_zero

/-- C4: for every raw provider `uv_index` — negative, fractional, zero,
missing, or greater than 11 — the normalized value is in `[1, 11]`
(integrality holds by construction: `normalizeUv` lands in `Int`). -/
theorem normalizeUv_in_range (raw : Option ℚ) :
    1 ≤ normalizeUv raw ∧ normalizeUv raw ≤ 11 := by
  unfold normalizeUv
  omega

/-- C7 counterexample: on a payload carrying a provider error object the
normalizer itself emits user-facing toasts (via `showErrorMessage`)
while also failing — the claim's "never itself reports" does not hold. -/
theorem getWeatherData_failure_toasts_counterexample :
    isFailure (getWeatherData ⟨some ⟨none⟩, none⟩).1 = true ∧
    (getWeatherData ⟨some ⟨none⟩, none⟩).2 ≠ [] := by
  constructor
  · rfl
  · simp [getWeatherData]

/-- C7 amended: the normalizer propagates every failure to its caller,
and it also reports failures itself: it emits a user-facing toast
exactly when normalization fails. -/
theorem getWeatherData_failure_iff_toasts (p : Payload) :
    isFailure (getWeatherData p).1 = true ↔ (getWeatherData p).2 ≠ [] := by
  rcases p with ⟨e, c⟩
  cases e <;> cases c <;> simp [getWeatherData, isFailure]

/-- C8: normalization fails exactly when the payload carries an error
object (checked first, producing the provider error) or lacks the
`current` section (producing the upstream error); with a `current`
section and no error object it yields the reading built by `mkReading`,
whose condition defaults to `"Unknown"` and whose precipitation and wind
default to 0 when the raw fields are absent. -/
theorem getWeatherData_failure_conditions (p : Payload) :
    (isFailure (getWeatherData p).1 = true ↔
        (p.error.isSome = true ∨ p.current = none)) ∧
    (∀ e, p.error = some e →
      (getWeatherData p).1
          = Except.error (WErr.providerError (jsOrStr e.info "Unknown API error"))) ∧
    (p.error = none → p.current = none →
      (getWeatherData p).1
          = Except.error (WErr.upstreamError "Invalid response format from weather API")) ∧
    (∀ c, p.error = none → p.current = some c →
      (getWeatherData p).1 = Except.ok (mkReading c) ∧
      (c.weather_descriptions = none → (mkReading c).condition = "Unknown") ∧
      (c.precip = none → (mkReading c).precipitation = "0%") ∧
      (c.wind_speed = none → (mkReading c).windSpeed = "0 km/h")) := by
  rcases p with ⟨e, c⟩
  refine ⟨?_, ?_, ?_, ?_⟩
  · cases e <;> cases c <;> simp [getWeatherData, isFailure]
  · rintro e0 rfl
    cases c <;> rfl
  · rintro rfl rfl
    rfl
  · rintro c0 rfl rfl
    refine ⟨rfl, ?_, ?_, ?_⟩
    · intro hd
      simp [mkReading, hd, jsOrStr]
    · intro hp
      show toString (jsOrInt c0.precip 0) ++ "%" = "0%"
      rw [hp]
      rfl
    · intro hw
      show toString (jsOrInt c0.wind_speed 0) ++ " km/h" = "0 km/h"
      rw [hw]
      rfl

/-- C8 witness: a payload whose `current` section has every optional
field absent yields a reading with the documented defaults, and a
payload with a bare error object fails with the provider error. -/
theorem getWeatherData_failure_conditions_witness :
    ((getWeatherData ⟨none, some ⟨25, none, none, none, none⟩⟩).1
        = Except.ok (mkReading ⟨25, none, none, none, none⟩) ∧
      (mkReading ⟨25, none, none, none, none⟩).condition = "Unknown" ∧
      (mkReading ⟨25, none, none, none, none⟩).precipitation = "0%" ∧
      (mkReading ⟨25, none, none, none, none⟩).windSpeed = "0 km/h") ∧
    (getWeatherData ⟨some ⟨none⟩, none⟩).1
        = Except.error (WErr.providerError "Unknown API error") := by
  constructor
  · obtain ⟨hok, hcond, hprec, hwind⟩ :=
      (getWeatherData_failure_conditions ⟨none, some ⟨25, none, none, none, none⟩⟩).2.2.2
        ⟨25, none, none, none, none⟩ rfl rfl
    exact ⟨hok, hcond rfl, hprec rfl, hwind rfl⟩
  · exact (getWeatherData_failure_conditions ⟨some ⟨none⟩, none⟩).2.1 ⟨none⟩ rfl

end SkyPlanner
